import Mathlib

/-!
Verification of the form-submission validation and normalization pipeline of
`server.js` (Godrej Arden lead-capture backend).

The server's core is the `POST /api/submit-form` handler: it destructures the
JSON body (with defaulting for `formType`, `timestamp`, `source` at
destructuring time), gates the submission through three validation checks
(presence by JS truthiness, phone digit-strip length, email regex), builds a
9-column row, appends it to the external spreadsheet store, and shapes the
HTTP response.  We embed the JSON value space, the handler, and the CORS
origin check as executable Lean functions, with the clock readings
(`new Date().toISOString()` and the India-time-zone locale string) and the
store append outcome injected as parameters.
-/

set_option autoImplicit false

/-- A JavaScript value as it can arrive in the parsed JSON body (scalars; a
missing property destructures to `undefined`, modelled as `undef`).  Numbers
are modelled as integers, which is exact for the integral numbers relevant
here. -/
inductive JSVal where
  | undef : JSVal
  | null : JSVal
  | bool : Bool → JSVal
  | num : Int → JSVal
  | str : String → JSVal
deriving DecidableEq, Repr

/-- JavaScript truthiness: `undefined`, `null`, `false`, `0` and `""` are
falsy, everything else is truthy.  This is the semantics of the source's
`if (!name || !email || !phone)` and of `city || 'Not specified'`,
`details || ''`. -/
def JSVal.truthy : JSVal → Bool
  | JSVal.undef => false
  | JSVal.null => false
  | JSVal.bool b => b
  | JSVal.num n => !(n == 0)
  | JSVal.str s => !(s == "")

/-- JavaScript string coercion (`x.toString()` / `String(x)`) on the scalar
values.  In the handler it is only ever applied to truthy values, so the
`undef`/`null` rows (where `.toString()` would throw) are never reached. -/
def JSVal.jsToString : JSVal → String
  | JSVal.undef => "undefined"
  | JSVal.null => "null"
  | JSVal.bool b => if b then "true" else "false"
  | JSVal.num n => toString n
  | JSVal.str s => s

/-- `phone.toString().replace(/\D/g, '')` — remove every character that is
not a decimal digit (`\D` is the complement of `[0-9]`). -/
def stripNonDigits (s : String) : String :=
  String.mk (s.toList.filter Char.isDigit)

/-- Character class `[a-zA-Z0-9._-]` of the source's `emailRegex` local
part. -/
def isLocalChar (c : Char) : Bool :=
  c.isAlpha || c.isDigit || c == '.' || c == '_' || c == '-'

/-- Character class `[a-zA-Z0-9.-]` of the source's `emailRegex` domain
part. -/
def isDomainChar (c : Char) : Bool :=
  c.isAlpha || c.isDigit || c == '.' || c == '-'

/-- Backtracking matcher for `p+` followed by a continuation `k` (the rest of
the regex): some non-empty prefix of characters satisfying `p` is consumed
and `k` accepts the remainder. -/
def matchPlus (p : Char → Bool) (k : List Char → Bool) : List Char → Bool
  | [] => false
  | c :: cs => p c && (k cs || matchPlus p k cs)

/-- Matcher for a single literal character followed by a continuation. -/
def matchChar (c : Char) (k : List Char → Bool) : List Char → Bool
  | [] => false
  | x :: xs => x == c && k xs

/-- Matcher for the tail `[a-zA-Z]{2,6}$` of the source's `emailRegex`:
the whole remaining input is 2 to 6 letters. -/
def matchTldEnd (cs : List Char) : Bool :=
  decide (2 ≤ cs.length) && decide (cs.length ≤ 6) && cs.all Char.isAlpha

/-- `emailRegex.test(s)` for the source's
`/^[a-zA-Z0-9._-]+@[a-zA-Z0-9.-]+\.[a-zA-Z]{2,6}$/`: anchored at both ends,
so the whole string must match the sequence
local⁺ `@` domain⁺ `.` letters{2,6}. -/
def emailRegexTest (s : String) : Bool :=
  matchPlus isLocalChar
    (matchChar '@' (matchPlus isDomainChar (matchChar '.' matchTldEnd)))
    s.toList

/-- The request body of `POST /api/submit-form`, in the order the source
destructures it: `{ name, email, phone, city, details, formType, timestamp,
source }`.  An absent property is `JSVal.undef`. -/
structure ReqBody where
  name : JSVal
  email : JSVal
  phone : JSVal
  city : JSVal
  details : JSVal
  formType : JSVal
  timestamp : JSVal
  source : JSVal
deriving DecidableEq, Repr

/-- The `data` object of the 200 response:
`{ name, email, phone: cleanPhone, formType }`. -/
structure SuccessData where
  name : JSVal
  email : JSVal
  phone : String
  formType : JSVal
deriving DecidableEq, Repr

/-- The three response shapes the handler can produce:
`res.status(400).json({error})`,
`res.status(200).json({success ::= true, message, data})`, and
`res.status(500).json({error, details, code})`. -/
inductive HandlerResult where
  | badRequest : String → HandlerResult
  | ok : String → SuccessData → HandlerResult
  | serverError : String → String → Option JSVal → HandlerResult
deriving DecidableEq, Repr

/-- HTTP status code of each response shape. -/
def HandlerResult.status : HandlerResult → Nat
  | HandlerResult.badRequest _ => 400
  | HandlerResult.ok _ _ => 200
  | HandlerResult.serverError _ _ _ => 500

/-- Outcome of the single `sheets.spreadsheets.values.append` call: either it
returns, or it throws an error carrying `error.message` and (optionally)
`error.code`. -/
inductive AppendOutcome where
  | success : AppendOutcome
  | failure : String → Option JSVal → AppendOutcome
deriving DecidableEq, Repr

/-- The `POST /api/submit-form` handler.  `nowIso` is the reading of
`new Date().toISOString()` at destructuring time, `localClock` the reading of
`new Date().toLocaleString('en-IN', { timeZone: 'Asia/Kolkata' })` at
row-build time, and `append` the outcome of the store append call.  The
second component is the row passed to the append call, `none` when the
handler returns before calling append. -/
def handleSubmission (body : ReqBody) (nowIso localClock : String)
    (append : AppendOutcome) : HandlerResult × Option (List JSVal) :=
  let formType := if body.formType == JSVal.undef then JSVal.str "general" else body.formType
  let timestamp := if body.timestamp == JSVal.undef then JSVal.str nowIso else body.timestamp
  let source := if body.source == JSVal.undef then JSVal.str "website" else body.source
  if !body.name.truthy || !body.email.truthy || !body.phone.truthy then
    (HandlerResult.badRequest "Please fill all required fields: Name, Email, Phone", none)
  else
    let cleanPhone := stripNonDigits body.phone.jsToString
    if cleanPhone.length != 10 then
      (HandlerResult.badRequest "Phone number must be exactly 10 digits", none)
    else if !emailRegexTest body.email.jsToString then
      (HandlerResult.badRequest "Please enter a valid email address", none)
    else
      let row : List JSVal :=
        [timestamp, body.name, body.email, JSVal.str cleanPhone,
         if body.city.truthy then body.city else JSVal.str "Not specified",
         if body.details.truthy then body.details else JSVal.str "",
         formType, source, JSVal.str localClock]
      match append with
      | AppendOutcome.success =>
          (HandlerResult.ok "Form submitted successfully"
            (SuccessData.mk body.name body.email cleanPhone formType), some row)
      | AppendOutcome.failure msg code =>
          (HandlerResult.serverError "Failed to submit form. Please try again later." msg code,
           some row)

/-- The validation gate of the handler, factored out: `some message` when one
of the three checks fails (with the message of the first failing check, in
source order), `none` when the submission passes validation. -/
def validationOutcome (body : ReqBody) : Option String :=
  if !body.name.truthy || !body.email.truthy || !body.phone.truthy then
    some "Please fill all required fields: Name, Email, Phone"
  else if (stripNonDigits body.phone.jsToString).length != 10 then
    some "Phone number must be exactly 10 digits"
  else if !emailRegexTest body.email.jsToString then
    some "Please enter a valid email address"
  else none

/-- The 9-column row the handler sends to the append call (the `values`
array), for a submission that passed validation. -/
def builtRow (body : ReqBody) (nowIso localClock : String) : List JSVal :=
  [if body.timestamp == JSVal.undef then JSVal.str nowIso else body.timestamp,
   body.name,
   body.email,
   JSVal.str (stripNonDigits body.phone.jsToString),
   if body.city.truthy then body.city else JSVal.str "Not specified",
   if body.details.truthy then body.details else JSVal.str "",
   if body.formType == JSVal.undef then JSVal.str "general" else body.formType,
   if body.source == JSVal.undef then JSVal.str "website" else body.source,
   JSVal.str localClock]

/-- The `allowedOrigins` list of the CORS configuration. -/
def allowedOrigins : List String :=
  ["http://localhost:5173",
   "https://godrej-seven.vercel.app",
   "https://godrejarden.in",
   "https://www.godrejarden.in"]

/-- What the CORS `origin` function does: whether the blocked-origin warning
was logged, the error argument of the callback (always `none` here) and the
allow argument. -/
structure CorsDecision where
  loggedBlocked : Bool
  err : Option String
  allow : Bool
deriving DecidableEq, Repr

/-- The `corsOptions.origin` function: requests with no origin are allowed;
listed origins are allowed; any other origin is logged as
`Blocked by CORS` but the callback is still invoked with
`(null, true)` (the source's `// Allow all for now`). -/
def corsOrigin (origin : Option String) : CorsDecision :=
  match origin with
  | none => CorsDecision.mk false none true
  | some o =>
      if allowedOrigins.contains o then CorsDecision.mk false none true
      else CorsDecision.mk true none true

example : stripNonDigits "+91 98765 43210" = "919876543210" := by decide
example : stripNonDigits "987-654-3210" = "9876543210" := by decide
example : emailRegexTest "a.b-c@sub.domain.co" = true := by decide
example : emailRegexTest "not-an-email" = false := by decide
example : emailRegexTest "a@b.com" = true := by decide

/-- Central characterization of the handler: the validation gate decides
everything before the append, and a submission that passes validation always
reaches the append call with `builtRow`. -/
theorem handleSubmission_eq (body : ReqBody) (nowIso localClock : String)
    (append : AppendOutcome) :
    handleSubmission body nowIso localClock append =
      match validationOutcome body with
      | some e => (HandlerResult.badRequest e, none)
      | none =>
          match append with
          | AppendOutcome.success =>
              (HandlerResult.ok "Form submitted successfully"
                (SuccessData.mk body.name body.email
                  (stripNonDigits body.phone.jsToString)
                  (if body.formType == JSVal.undef then JSVal.str "general"
                   else body.formType)),
               some (builtRow body nowIso localClock))
          | AppendOutcome.failure msg code =>
              (HandlerResult.serverError
                 "Failed to submit form. Please try again later." msg code,
               some (builtRow body nowIso localClock)) := by
  by_cases hA : (!body.name.truthy || !body.email.truthy || !body.phone.truthy) = true
  · simp [handleSubmission, validationOutcome, hA]
  · rw [Bool.not_eq_true] at hA
    by_cases hB : ((stripNonDigits body.phone.jsToString).length != 10) = true
    · simp [handleSubmission, validationOutcome, hA, hB]
    · rw [Bool.not_eq_true] at hB
      by_cases hC : (!emailRegexTest body.email.jsToString) = true
      · simp [handleSubmission, validationOutcome, hA, hB, hC]
      · rw [Bool.not_eq_true] at hC
        cases append <;>
          simp [handleSubmission, validationOutcome, builtRow, hA, hB, hC]

/-- Every character surviving `stripNonDigits` is an ASCII decimal digit. -/
theorem stripNonDigits_all_digits (s : String) :
    (stripNonDigits s).toList.all Char.isDigit = true := by
  simp [stripNonDigits, List.all_eq_true]

/-- `matchPlus p k` accepts exactly the lists that split into a non-empty
prefix of `p`-characters and a remainder accepted by `k`. -/
theorem matchPlus_eq_true_iff (p : Char → Bool) (k : List Char → Bool)
    (cs : List Char) :
    matchPlus p k cs = true ↔
      ∃ l r, cs = l ++ r ∧ l ≠ [] ∧ l.all p = true ∧ k r = true := by
  induction cs with
  | nil =>
      constructor
      · intro h
        exact absurd h (by simp [matchPlus])
      · rintro ⟨l, r, h, hl, -, -⟩
        cases l with
        | nil => exact absurd rfl hl
        | cons a as => simp at h
  | cons c cs ih =>
      constructor
      · intro h
        simp only [matchPlus, Bool.and_eq_true, Bool.or_eq_true] at h
        obtain ⟨hp, hk | hm⟩ := h
        · exact ⟨[c], cs, rfl, by simp, by simp [hp], hk⟩
        · obtain ⟨l, r, hcs, -, hall, hkr⟩ := ih.mp hm
          refine ⟨c :: l, r, by simp [hcs], by simp, ?_, hkr⟩
          simp [List.all_cons, hp, hall]
      · rintro ⟨l, r, hcs, hl, hall, hkr⟩
        cases l with
        | nil => exact absurd rfl hl
        | cons a as =>
            simp only [List.cons_append, List.cons.injEq] at hcs
            obtain ⟨rfl, rfl⟩ := hcs
            simp only [List.all_cons, Bool.and_eq_true] at hall
            obtain ⟨hp, halla⟩ := hall
            simp only [matchPlus, Bool.and_eq_true, Bool.or_eq_true, hp,
              true_and]
            cases as with
            | nil => exact Or.inl hkr
            | cons b bs =>
                exact Or.inr (ih.mpr ⟨b :: bs, r, rfl, by simp, halla, hkr⟩)

/-- `matchChar c k` accepts exactly the lists starting with `c` whose tail
`k` accepts. -/
theorem matchChar_eq_true_iff (c : Char) (k : List Char → Bool)
    (cs : List Char) :
    matchChar c k cs = true ↔ ∃ r, cs = c :: r ∧ k r = true := by
  cases cs with
  | nil => simp [matchChar]
  | cons x xs =>
      simp only [matchChar, Bool.and_eq_true, beq_iff_eq]
      constructor
      · rintro ⟨rfl, hk⟩
        exact ⟨xs, rfl, hk⟩
      · rintro ⟨r, h, hk⟩
        injection h with h1 h2
        subst h1; subst h2
        exact ⟨rfl, hk⟩

/-- The specification's reading of the email pattern: the string decomposes
as local-part `@` domain-part `.` TLD with the stated character classes and
the TLD between 2 and 6 letters. -/
def emailSpec (s : String) : Prop :=
  ∃ l d t : List Char,
    s.toList = l ++ '@' :: (d ++ '.' :: t) ∧
    l ≠ [] ∧ l.all isLocalChar = true ∧
    d ≠ [] ∧ d.all isDomainChar = true ∧
    2 ≤ t.length ∧ t.length ≤ 6 ∧ t.all Char.isAlpha = true

/-- The regex matcher agrees with the decomposition reading of the email
pattern. -/
theorem emailRegexTest_iff_emailSpec (s : String) :
    emailRegexTest s = true ↔ emailSpec s := by
  unfold emailRegexTest emailSpec
  rw [matchPlus_eq_true_iff]
  constructor
  · rintro ⟨l, r, hs, hl, hall, hk⟩
    rw [matchChar_eq_true_iff] at hk
    obtain ⟨r1, rfl, hk1⟩ := hk
    rw [matchPlus_eq_true_iff] at hk1
    obtain ⟨d, r2, rfl, hd, halld, hk2⟩ := hk1
    rw [matchChar_eq_true_iff] at hk2
    obtain ⟨t, rfl, ht⟩ := hk2
    simp only [matchTldEnd, Bool.and_eq_true, decide_eq_true_eq] at ht
    exact ⟨l, d, t, by simpa using hs, hl, hall, hd, halld, ht.1.1, ht.1.2,
      ht.2⟩
  · rintro ⟨l, d, t, hs, hl, hall, hd, halld, h2, h6, hta⟩
    refine ⟨l, '@' :: (d ++ '.' :: t), hs, hl, hall, ?_⟩
    rw [matchChar_eq_true_iff]
    refine ⟨d ++ '.' :: t, rfl, ?_⟩
    rw [matchPlus_eq_true_iff]
    refine ⟨d, '.' :: t, rfl, hd, halld, ?_⟩
    rw [matchChar_eq_true_iff]
    refine ⟨t, rfl, ?_⟩
    simp [matchTldEnd, h2, h6, hta]

/-- A fully valid submission with all optional fields omitted. -/
def validBody : ReqBody :=
  ReqBody.mk (JSVal.str "A") (JSVal.str "a@b.com") (JSVal.str "9876543210")
    JSVal.undef JSVal.undef JSVal.undef JSVal.undef JSVal.undef

/-- A submission missing the name field entirely. -/
def missingNameBody : ReqBody :=
  ReqBody.mk JSVal.undef (JSVal.str "a@b.com") (JSVal.str "9876543210")
    JSVal.undef JSVal.undef JSVal.undef JSVal.undef JSVal.undef

/-- A submission whose name is a whitespace-only string. -/
def wsNameBody : ReqBody :=
  ReqBody.mk (JSVal.str " ") (JSVal.str "a@b.com") (JSVal.str "9876543210")
    JSVal.undef JSVal.undef JSVal.undef JSVal.undef JSVal.undef

/-- A submission with a 5-digit phone. -/
def shortPhoneBody : ReqBody :=
  ReqBody.mk (JSVal.str "A") (JSVal.str "a@b.com") (JSVal.str "12345")
    JSVal.undef JSVal.undef JSVal.undef JSVal.undef JSVal.undef

/-- A submission with both a bad phone and a bad email. -/
def badPhoneAndEmailBody : ReqBody :=
  ReqBody.mk (JSVal.str "A") (JSVal.str "not-an-email") (JSVal.str "12345")
    JSVal.undef JSVal.undef JSVal.undef JSVal.undef JSVal.undef

/-- A valid submission whose email fails the pattern. -/
def badEmailBody : ReqBody :=
  ReqBody.mk (JSVal.str "A") (JSVal.str "not-an-email")
    (JSVal.str "9876543210")
    JSVal.undef JSVal.undef JSVal.undef JSVal.undef JSVal.undef

/-- A valid submission whose optional city, details, formType and source are
all present but equal to the empty string. -/
def emptyOptBody : ReqBody :=
  ReqBody.mk (JSVal.str "A") (JSVal.str "a@b.com") (JSVal.str "9876543210")
    (JSVal.str "") (JSVal.str "") (JSVal.str "") JSVal.undef (JSVal.str "")

/-- A submission passes the validation gate exactly when the three required
fields are truthy, the stripped phone has 10 digits and the email matches
the regex. -/
theorem validationOutcome_none_iff (body : ReqBody) :
    validationOutcome body = none ↔
      body.name.truthy = true ∧ body.email.truthy = true ∧
      body.phone.truthy = true ∧
      (stripNonDigits body.phone.jsToString).length = 10 ∧
      emailRegexTest body.email.jsToString = true := by
  unfold validationOutcome
  split_ifs with h1 h2 h3
  · simp only [Bool.or_eq_true, Bool.not_eq_true'] at h1
    constructor
    · intro h; exact absurd h (by simp)
    · rintro ⟨ha, hb, hc, -, -⟩
      rcases h1 with (h | h) | h <;> simp_all
  · constructor
    · intro h; exact absurd h (by simp)
    · rintro ⟨-, -, -, hd, -⟩
      rw [bne_iff_ne] at h2
      exact absurd hd h2
  · constructor
    · intro h; exact absurd h (by simp)
    · rintro ⟨-, -, -, -, he⟩
      rw [Bool.not_eq_true'] at h3
      rw [he] at h3
      cases h3
  · constructor
    · intro _
      refine ⟨?_, ?_, ?_, ?_, ?_⟩
      · cases hx : body.name.truthy with
        | true => rfl
        | false => exact absurd (by simp [hx]) h1
      · cases hx : body.email.truthy with
        | true => rfl
        | false => exact absurd (by simp [hx]) h1
      · cases hx : body.phone.truthy with
        | true => rfl
        | false => exact absurd (by simp [hx]) h1
      · by_contra hne
        exact h2 (by simpa [bne_iff_ne] using hne)
      · cases hx : emailRegexTest body.email.jsToString with
        | true => rfl
        | false => exact absurd (by simp [hx]) h3
    · intro _; rfl

/-- The validation gate produces the missing-fields message exactly when one
of the three required fields is falsy. -/
theorem validationOutcome_missing_iff (body : ReqBody) :
    validationOutcome body =
        some "Please fill all required fields: Name, Email, Phone" ↔
      (body.name.truthy = false ∨ body.email.truthy = false ∨
       body.phone.truthy = false) := by
  unfold validationOutcome
  split_ifs with h1 h2 h3
  · simp only [Bool.or_eq_true, Bool.not_eq_true'] at h1
    constructor
    · intro _
      rcases h1 with (h | h) | h
      · exact Or.inl h
      · exact Or.inr (Or.inl h)
      · exact Or.inr (Or.inr h)
    · intro _; rfl
  · constructor
    · intro h; exact absurd h (by decide)
    · intro hd
      exact absurd (by simpa [Bool.or_eq_true, Bool.not_eq_true', or_assoc] using hd) h1
  · constructor
    · intro h; exact absurd h (by decide)
    · intro hd
      exact absurd (by simpa [Bool.or_eq_true, Bool.not_eq_true', or_assoc] using hd) h1
  · constructor
    · intro h; exact absurd h (by decide)
    · intro hd
      exact absurd (by simpa [Bool.or_eq_true, Bool.not_eq_true', or_assoc] using hd) h1

/-- Whenever the handler reaches the append call, the row it passes is
`builtRow`. -/
theorem appended_row_eq (body : ReqBody) (nowIso localClock : String)
    (append : AppendOutcome) (r : List JSVal)
    (h : (handleSubmission body nowIso localClock append).2 = some r) :
    r = builtRow body nowIso localClock := by
  rw [handleSubmission_eq] at h
  cases hv : validationOutcome body with
  | some e => rw [hv] at h; simp at h
  | none =>
      rw [hv] at h
      cases append <;> simp at h <;> exact h.symm

/-- C1: every submission that fails validation (missing required field,
phone whose digit-stripped form is not 10 digits, or email failing the
pattern) gets a 400 response with the corresponding fixed message, and the
store append is never called: no row is built or passed to append. -/
theorem c1_rejection_gates_append (body : ReqBody)
    (nowIso localClock : String) (append : AppendOutcome) (e : String)
    (h : validationOutcome body = some e) :
    handleSubmission body nowIso localClock append =
      (HandlerResult.badRequest e, none) ∧
    HandlerResult.status
      (handleSubmission body nowIso localClock append).1 = 400 := by
  rw [handleSubmission_eq, h]
  exact ⟨rfl, rfl⟩

/-- C1 witness: a submission with no name is rejected with the
missing-fields message and nothing is appended. -/
theorem c1_rejection_gates_append_witness :
    handleSubmission missingNameBody "2024-01-01T00:00:00.000Z" "clock"
        AppendOutcome.success =
      (HandlerResult.badRequest
         "Please fill all required fields: Name, Email, Phone", none) :=
  (c1_rejection_gates_append missingNameBody "2024-01-01T00:00:00.000Z"
    "clock" AppendOutcome.success
    "Please fill all required fields: Name, Email, Phone" (by decide)).1

/-- C2: for submissions whose required fields are truthy, a phone whose
digit-stripped string form is not 10 characters long is rejected with the
invalid-phone-length message before any row is built; and whenever the
handler answers with a success response, the echoed phone is exactly the
digit-stripped form of the input phone, 10 characters long and all ASCII
digits. -/
theorem c2_phone_normalization (body : ReqBody)
    (nowIso localClock : String) (append : AppendOutcome) :
    (body.name.truthy = true → body.email.truthy = true →
      body.phone.truthy = true →
      (stripNonDigits body.phone.jsToString).length ≠ 10 →
      handleSubmission body nowIso localClock append =
        (HandlerResult.badRequest "Phone number must be exactly 10 digits",
         none)) ∧
    (∀ m d, (handleSubmission body nowIso localClock append).1 =
        HandlerResult.ok m d →
      d.phone = stripNonDigits body.phone.jsToString ∧
      d.phone.length = 10 ∧ d.phone.toList.all Char.isDigit = true) := by
  constructor
  · intro hn he hp hlen
    have hv : validationOutcome body =
        some "Phone number must be exactly 10 digits" := by
      unfold validationOutcome
      simp [hn, he, hp, hlen]
    rw [handleSubmission_eq, hv]
  · intro m d h
    rw [handleSubmission_eq] at h
    cases hv : validationOutcome body with
    | some e => rw [hv] at h; cases h
    | none =>
        rw [hv] at h
        cases append with
        | failure msg code => cases h
        | success =>
            have hd : d = SuccessData.mk body.name body.email
                (stripNonDigits body.phone.jsToString)
                (if body.formType == JSVal.undef then JSVal.str "general"
                 else body.formType) := by
              injection h with h1 h2
              exact h2.symm
            subst hd
            refine ⟨rfl, ?_, stripNonDigits_all_digits _⟩
            exact ((validationOutcome_none_iff body).mp hv).2.2.2.1

/-- C2 witness: a 5-digit phone is rejected with the invalid-phone-length
message and nothing is appended. -/
theorem c2_phone_normalization_witness :
    handleSubmission shortPhoneBody "2024-01-01T00:00:00.000Z" "clock"
        AppendOutcome.success =
      (HandlerResult.badRequest "Phone number must be exactly 10 digits",
       none) :=
  (c2_phone_normalization shortPhoneBody "2024-01-01T00:00:00.000Z" "clock"
    AppendOutcome.success).1 (by decide) (by decide) (by decide) (by decide)

/-- C3: the email check accepts a string exactly when it decomposes as a
non-empty local part over letters, digits, dot, underscore and hyphen, an
at sign, a non-empty domain part over letters, digits, dot and hyphen, a
dot, and a TLD of 2 to 6 letters; `a.b-c@sub.domain.co` is accepted, and a
submission with email `not-an-email` (other fields valid) is rejected with
the invalid-email-format message. -/
theorem c3_email_check :
    (∀ s, emailRegexTest s = true ↔ emailSpec s) ∧
    emailRegexTest "a.b-c@sub.domain.co" = true ∧
    emailRegexTest "not-an-email" = false ∧
    handleSubmission badEmailBody "2024-01-01T00:00:00.000Z" "clock"
        AppendOutcome.success =
      (HandlerResult.badRequest "Please enter a valid email address",
       none) :=
  ⟨emailRegexTest_iff_emailSpec, by decide, by decide, by decide⟩

/-- C4 counterexample: a whitespace-only name is truthy in JavaScript, so a
submission whose name is the single-space string `" "` (email and phone
valid) is NOT rejected with the missing-fields message — it is accepted and
stored, contradicting the claim that empty-after-trimming fields are
rejected. -/
theorem c4_counterexample :
    JSVal.truthy (JSVal.str " ") = true ∧
    (handleSubmission wsNameBody "2024-01-01T00:00:00.000Z" "clock"
        AppendOutcome.success).1 ≠
      HandlerResult.badRequest
        "Please fill all required fields: Name, Email, Phone" ∧
    (handleSubmission wsNameBody "2024-01-01T00:00:00.000Z" "clock"
        AppendOutcome.success).1 =
      HandlerResult.ok "Form submitted successfully"
        (SuccessData.mk (JSVal.str " ") (JSVal.str "a@b.com") "9876543210"
          (JSVal.str "general")) := by
  decide

/-- C4 amended: the handler rejects with the single fixed missing-fields
message (naming all three required fields) exactly when one of name, email,
phone is absent or otherwise falsy (empty string, 0, false, null); a
whitespace-only string is truthy and passes the presence check. -/
theorem c4_missing_fields_amended (body : ReqBody)
    (nowIso localClock : String) (append : AppendOutcome) :
    ((handleSubmission body nowIso localClock append).1 =
        HandlerResult.badRequest
          "Please fill all required fields: Name, Email, Phone" ↔
      (body.name.truthy = false ∨ body.email.truthy = false ∨
       body.phone.truthy = false)) ∧
    JSVal.truthy (JSVal.str " ") = true := by
  refine ⟨?_, by decide⟩
  rw [handleSubmission_eq, ← validationOutcome_missing_iff body]
  cases hv : validationOutcome body with
  | none => cases append <;> simp
  | some e => simp

/-- C5: the checks run in the fixed order presence, phone, email and
short-circuit on the first failure: a submission with all required fields
truthy whose phone strips to a non-10-digit string AND whose email fails the
pattern is rejected with the invalid-phone-length message, never the
invalid-email-format one. -/
theorem c5_phone_check_before_email (body : ReqBody)
    (nowIso localClock : String) (append : AppendOutcome)
    (hn : body.name.truthy = true) (he : body.email.truthy = true)
    (hp : body.phone.truthy = true)
    (hlen : (stripNonDigits body.phone.jsToString).length ≠ 10)
    (hmail : emailRegexTest body.email.jsToString = false) :
    handleSubmission body nowIso localClock append =
      (HandlerResult.badRequest "Phone number must be exactly 10 digits",
       none) ∧
    (handleSubmission body nowIso localClock append).1 ≠
      HandlerResult.badRequest "Please enter a valid email address" := by
  have hv : validationOutcome body =
      some "Phone number must be exactly 10 digits" := by
    unfold validationOutcome
    simp [hn, he, hp, hlen]
  rw [handleSubmission_eq, hv]
  refine ⟨rfl, ?_⟩
  intro hc
  injection hc with hmsg
  exact absurd hmsg (by decide)

/-- C5 witness: phone `12345` and email `not-an-email` together are rejected
with the phone message. -/
theorem c5_phone_check_before_email_witness :
    handleSubmission badPhoneAndEmailBody "2024-01-01T00:00:00.000Z" "clock"
        AppendOutcome.success =
      (HandlerResult.badRequest "Phone number must be exactly 10 digits",
       none) :=
  (c5_phone_check_before_email badPhoneAndEmailBody
    "2024-01-01T00:00:00.000Z" "clock" AppendOutcome.success
    (by decide) (by decide) (by decide) (by decide) (by decide)).1

/-- C6: whenever the handler reaches the append call, the row is the ordered
9-column tuple `[timestamp, name, email, normalizedPhone, city, details,
formType, source, localSubmissionClockString]`; omitted optional fields take
the defaults `city="Not specified"`, `details=""`, `formType="general"`,
`source="website"`, an omitted timestamp defaults to the ISO-8601 reading of
the clock at handling time, and the 9th column is the India-time-zone locale
clock string taken at row-build time, separate from the timestamp column. -/
theorem c6_row_columns (body : ReqBody) (nowIso localClock : String)
    (append : AppendOutcome) (r : List JSVal)
    (h : (handleSubmission body nowIso localClock append).2 = some r) :
    r = builtRow body nowIso localClock ∧
    r.length = 9 ∧
    r.get? 1 = some body.name ∧
    r.get? 2 = some body.email ∧
    r.get? 3 = some (JSVal.str (stripNonDigits body.phone.jsToString)) ∧
    (body.timestamp = JSVal.undef → r.get? 0 = some (JSVal.str nowIso)) ∧
    (body.city = JSVal.undef → r.get? 4 = some (JSVal.str "Not specified")) ∧
    (body.details = JSVal.undef → r.get? 5 = some (JSVal.str "")) ∧
    (body.formType = JSVal.undef → r.get? 6 = some (JSVal.str "general")) ∧
    (body.source = JSVal.undef → r.get? 7 = some (JSVal.str "website")) ∧
    r.get? 8 = some (JSVal.str localClock) := by
  have hr : r = builtRow body nowIso localClock :=
    appended_row_eq body nowIso localClock append r h
  subst hr
  refine ⟨rfl, rfl, rfl, rfl, rfl, ?_, ?_, ?_, ?_, ?_, rfl⟩
  · intro hts; simp [builtRow, hts]
  · intro hc; simp [builtRow, hc, JSVal.truthy]
  · intro hd; simp [builtRow, hd, JSVal.truthy]
  · intro hf; simp [builtRow, hf]
  · intro hs; simp [builtRow, hs]

/-- C6 witness: the fully-defaulted valid submission is appended as the row
with all four defaults, the injected timestamp and the injected local clock
string. -/
theorem c6_row_columns_witness :
    (handleSubmission validBody "2024-01-01T00:00:00.000Z" "1/1/2024"
        AppendOutcome.success).2 =
      some (builtRow validBody "2024-01-01T00:00:00.000Z" "1/1/2024") ∧
    (builtRow validBody "2024-01-01T00:00:00.000Z" "1/1/2024").get? 0 =
      some (JSVal.str "2024-01-01T00:00:00.000Z") ∧
    (builtRow validBody "2024-01-01T00:00:00.000Z" "1/1/2024").get? 4 =
      some (JSVal.str "Not specified") ∧
    (builtRow validBody "2024-01-01T00:00:00.000Z" "1/1/2024").get? 5 =
      some (JSVal.str "") ∧
    (builtRow validBody "2024-01-01T00:00:00.000Z" "1/1/2024").get? 6 =
      some (JSVal.str "general") ∧
    (builtRow validBody "2024-01-01T00:00:00.000Z" "1/1/2024").get? 7 =
      some (JSVal.str "website") := by
  obtain ⟨h1, h2, h3, h4, h5, h6, h7, h8, h9, h10, h11⟩ :=
    c6_row_columns validBody "2024-01-01T00:00:00.000Z" "1/1/2024"
      AppendOutcome.success
      (builtRow validBody "2024-01-01T00:00:00.000Z" "1/1/2024") (by decide)
  exact ⟨by decide, h6 rfl, h7 rfl, h8 rfl, h9 rfl, h10 rfl⟩

/-- C7: a submission that passes validation and whose append succeeds gets a
200 response whose data object is exactly `{name, email, phone, formType}`
with `phone` the 10-digit normalized value, not the raw input; timestamps,
city, details and source are not part of the response data. -/
theorem c7_success_response (body : ReqBody) (nowIso localClock : String)
    (h : validationOutcome body = none) :
    handleSubmission body nowIso localClock AppendOutcome.success =
      (HandlerResult.ok "Form submitted successfully"
        (SuccessData.mk body.name body.email
          (stripNonDigits body.phone.jsToString)
          (if body.formType == JSVal.undef then JSVal.str "general"
           else body.formType)),
       some (builtRow body nowIso localClock)) ∧
    HandlerResult.status
      (handleSubmission body nowIso localClock AppendOutcome.success).1 =
      200 ∧
    (stripNonDigits body.phone.jsToString).length = 10 := by
  rw [handleSubmission_eq, h]
  exact ⟨rfl, rfl, ((validationOutcome_none_iff body).mp h).2.2.2.1⟩

/-- C7 witness: the valid submission yields 200 with the normalized phone
echoed. -/
theorem c7_success_response_witness :
    handleSubmission validBody "2024-01-01T00:00:00.000Z" "1/1/2024"
        AppendOutcome.success =
      (HandlerResult.ok "Form submitted successfully"
        (SuccessData.mk (JSVal.str "A") (JSVal.str "a@b.com") "9876543210"
          (JSVal.str "general")),
       some (builtRow validBody "2024-01-01T00:00:00.000Z" "1/1/2024")) :=
  (c7_success_response validBody "2024-01-01T00:00:00.000Z" "1/1/2024"
    (by decide)).1

/-- C8: a submission that passes validation but whose append throws gets a
500 response whose details field is the collaborator's error message
verbatim and whose code field is the collaborator's error code; the append
is attempted exactly once (the row below) and the failure is not classified
further. -/
theorem c8_store_failure_surfaced (body : ReqBody)
    (nowIso localClock m : String) (c : Option JSVal)
    (h : validationOutcome body = none) :
    handleSubmission body nowIso localClock (AppendOutcome.failure m c) =
      (HandlerResult.serverError
        "Failed to submit form. Please try again later." m c,
       some (builtRow body nowIso localClock)) ∧
    HandlerResult.status
      (handleSubmission body nowIso localClock
        (AppendOutcome.failure m c)).1 = 500 := by
  rw [handleSubmission_eq, h]
  exact ⟨rfl, rfl⟩

/-- C8 witness: a quota failure of the store is surfaced verbatim with its
code as a 500. -/
theorem c8_store_failure_surfaced_witness :
    handleSubmission validBody "2024-01-01T00:00:00.000Z" "1/1/2024"
        (AppendOutcome.failure "The caller does not have permission"
          (some (JSVal.num 403))) =
      (HandlerResult.serverError
        "Failed to submit form. Please try again later."
        "The caller does not have permission" (some (JSVal.num 403)),
       some (builtRow validBody "2024-01-01T00:00:00.000Z" "1/1/2024")) :=
  (c8_store_failure_surfaced validBody "2024-01-01T00:00:00.000Z" "1/1/2024"
    "The caller does not have permission" (some (JSVal.num 403))
    (by decide)).1

/-- C9: the CORS origin check allows every request: absent origins and
listed origins are allowed immediately with no warning, and any other
origin is logged as blocked but the callback is still invoked with
`(null, true)` — no origin is ever actually blocked. -/
theorem c9_cors_always_allows (origin : Option String) :
    (corsOrigin origin).allow = true ∧
    (corsOrigin origin).err = none ∧
    ((corsOrigin origin).loggedBlocked = true ↔
      ∃ o, origin = some o ∧ allowedOrigins.contains o = false) := by
  cases origin with
  | none => simp [corsOrigin]
  | some o =>
      by_cases h : allowedOrigins.contains o = true
      · have hm : o ∈ allowedOrigins := by simpa using h
        simp [corsOrigin, h, hm]
      · rw [Bool.not_eq_true] at h
        have hm : o ∉ allowedOrigins := by simpa using h
        simp [corsOrigin, h, hm]

/-- C10: defaulting is asymmetric: a falsy (e.g. present-but-empty) city or
details still becomes the default in the appended row, because `city ||
'Not specified'` and `details || ''` test truthiness at row-build time,
while a present-but-empty-string formType or source is kept as `""` since
their destructuring defaults fire only on an absent (undefined) field. -/
theorem c10_default_asymmetry (body : ReqBody)
    (nowIso localClock : String) (append : AppendOutcome) (r : List JSVal)
    (h : (handleSubmission body nowIso localClock append).2 = some r) :
    (body.city.truthy = false →
      r.get? 4 = some (JSVal.str "Not specified")) ∧
    (body.details.truthy = false → r.get? 5 = some (JSVal.str "")) ∧
    (body.formType = JSVal.str "" → r.get? 6 = some (JSVal.str "")) ∧
    (body.source = JSVal.str "" → r.get? 7 = some (JSVal.str "")) ∧
    JSVal.truthy (JSVal.str "") = false := by
  have hr : r = builtRow body nowIso localClock :=
    appended_row_eq body nowIso localClock append r h
  subst hr
  refine ⟨?_, ?_, ?_, ?_, by decide⟩
  · intro hc; simp [builtRow, hc]
  · intro hd; simp [builtRow, hd]
  · intro hf; simp [builtRow, hf]
  · intro hs; simp [builtRow, hs]

/-- C10 witness: with city, details, formType and source all present as
empty strings, the row keeps `""` for formType and source but defaults city
and details. -/
theorem c10_default_asymmetry_witness :
    (handleSubmission emptyOptBody "2024-01-01T00:00:00.000Z" "1/1/2024"
        AppendOutcome.success).2 =
      some (builtRow emptyOptBody "2024-01-01T00:00:00.000Z" "1/1/2024") ∧
    (builtRow emptyOptBody "2024-01-01T00:00:00.000Z" "1/1/2024").get? 4 =
      some (JSVal.str "Not specified") ∧
    (builtRow emptyOptBody "2024-01-01T00:00:00.000Z" "1/1/2024").get? 5 =
      some (JSVal.str "") ∧
    (builtRow emptyOptBody "2024-01-01T00:00:00.000Z" "1/1/2024").get? 6 =
      some (JSVal.str "") ∧
    (builtRow emptyOptBody "2024-01-01T00:00:00.000Z" "1/1/2024").get? 7 =
      some (JSVal.str "") := by
  obtain ⟨h4, h5, h6, h7, -⟩ :=
    c10_default_asymmetry emptyOptBody "2024-01-01T00:00:00.000Z" "1/1/2024"
      AppendOutcome.success
      (builtRow emptyOptBody "2024-01-01T00:00:00.000Z" "1/1/2024")
      (by decide)
  exact ⟨by decide, h4 (by decide), h5 (by decide), h6 rfl, h7 rfl⟩
